import Mathlib

/-!
Verification of the Network Performance Tester (npt.py).

The embedding models the statistics pipeline, the per-metric measurement
methods, the MTU discovery loop with its internal clock check, the
thread-join timeout wrapper, and the orchestrator's results dictionary.

Conventions of the embedding:
- Python floats are idealised as exact rationals; `round(x, 2)` becomes
  exact round-half-to-even on rationals (binary representation error of
  floats is abstracted away).
- A ping oracle `pings : Nat → Option ℚ` gives the outcome of the k-th
  call of `ping(target)` (in seconds, `none` = no reply), mirroring the
  sequential sampling loops.
- An exception caught by a method's `except` block that stores `None`
  becomes an explicit `none` / `absent` result.
- Wall-clock time is abstract: a clock oracle gives `time.time() -
  start_time` at each iteration of the MTU loop, and operation durations
  are explicit parameters of the timeout model.
-/

namespace NPT

/-- Python's builtin `round` to the nearest integer: round-half-to-even
(banker's rounding), on exact rationals. -/
def pyRoundInt (x : ℚ) : ℤ :=
  let f := ⌊x⌋
  let r := x - f
  if r < 1/2 then f
  else if 1/2 < r then f + 1
  else if f % 2 = 0 then f else f + 1

/-- Python's `round(x, 2)`: round to 2 decimal places. -/
def round2 (x : ℚ) : ℚ := (pyRoundInt (100 * x) : ℚ) / 100

/-- `statistics.mean` on an idealised list of rationals. -/
def mean (l : List ℚ) : ℚ := l.sum / l.length

/-- Python's `min` on a list (the empty case is unreachable at every call
site; 0 stands in for the raised ValueError). -/
def listMin : List ℚ → ℚ
  | [] => 0
  | x :: xs => xs.foldl min x

/-- Python's `max` on a list (empty case unreachable, as for `listMin`). -/
def listMax : List ℚ → ℚ
  | [] => 0
  | x :: xs => xs.foldl max x

/-- The shape of the `latency` / `jitter` / `dns_resolution` result
records: `{'average_ms': .., 'min_ms': .., 'max_ms': ..}`. -/
structure Stats where
  average_ms : ℚ
  min_ms : ℚ
  max_ms : ℚ
deriving DecidableEq, Repr

/-- The summarisation step of `measure_latency` (npt.py lines 85-94):
`if latencies:` build the mean/min/max record rounded to 2 decimals,
`else` raise, caught as an absent result. -/
def summarize (latencies : List ℚ) : Option Stats :=
  if latencies.isEmpty then none
  else some ⟨round2 (mean latencies), round2 (listMin latencies), round2 (listMax latencies)⟩

/-- The sampling loop shared by `measure_latency` and `measure_jitter`
(npt.py lines 79-83 and 184-188): call `ping` `sample_size` times, keep
the successful results, converted to milliseconds. -/
def collectLatencies (pings : ℕ → Option ℚ) (sample_size : ℕ) : List ℚ :=
  ((List.range sample_size).filterMap pings).map (fun r => r * 1000)

/-- The raw sample sequence of one sampling loop: every attempt's outcome,
failure markers included. -/
def collectSamples (pings : ℕ → Option ℚ) (sample_size : ℕ) : List (Option ℚ) :=
  (List.range sample_size).map pings

/-- `measure_latency` (npt.py lines 73-98): the value stored in
`results['latency']`. -/
def measure_latency (pings : ℕ → Option ℚ) (sample_size : ℕ) : Option Stats :=
  summarize (collectLatencies pings sample_size)

/-- The `packet_loss` result record (npt.py lines 113-117). -/
structure PacketLossStats where
  loss_rate_percent : ℚ
  packets_sent : ℕ
  packets_received : ℕ
deriving DecidableEq, Repr

/-- `measure_packet_loss` (npt.py lines 100-122): counts replies among
`sent = sample_size` pings; with `sent = 0` the loss-rate division raises
ZeroDivisionError, caught as an absent result. -/
def measure_packet_loss (pings : ℕ → Option ℚ) (sample_size : ℕ) : Option PacketLossStats :=
  let sent := sample_size
  let received := ((List.range sent).filterMap pings).length
  if sent = 0 then none
  else some ⟨round2 ((((sent : ℚ) - received) / sent) * 100), sent, received⟩

/-- The consecutive-differences loop of `measure_jitter` (npt.py lines
191-193): absolute differences of temporally adjacent samples. -/
def diffs : List ℚ → List ℚ
  | a :: b :: rest => |b - a| :: diffs (b :: rest)
  | _ => []

/-- The aggregation step of `measure_jitter` (npt.py lines 190-203):
requires at least 2 successful latencies, else the raised exception is
caught as an absent result. -/
def jitterOf (latencies : List ℚ) : Option Stats :=
  if 2 ≤ latencies.length then
    let differences := diffs latencies
    some ⟨round2 (mean differences), round2 (listMin differences), round2 (listMax differences)⟩
  else none

/-- `measure_jitter` (npt.py lines 178-207): the value stored in
`results['jitter']`. -/
def measure_jitter (pings : ℕ → Option ℚ) (sample_size : ℕ) : Option Stats :=
  jitterOf (collectLatencies pings sample_size)

/-- The `bandwidth` result record (npt.py lines 161-164): two independent
optional fields. -/
structure BandwidthStats where
  download_mbps : Option ℚ
  upload_mbps : Option ℚ
deriving DecidableEq, Repr

/-- `measure_bandwidth` (npt.py lines 124-176). `serverOk` is whether the
speedtest setup and `get_best_server` succeed; `download`/`upload` are the
raw collaborator outcomes in bits per second (`none` = that sub-test threw,
caught by its inner `except`, which sets only that field to `None`). The
outer `except` stores a record with both fields `None` — never a bare
`None`. -/
def measure_bandwidth (serverOk : Bool) (download upload : Option ℚ) : BandwidthStats :=
  if serverOk then
    ⟨download.map (fun d => round2 (d / 1000000)), upload.map (fun u => round2 (u / 1000000))⟩
  else ⟨none, none⟩

/-- The `mtu` result record (npt.py lines 263-265). -/
structure MtuStats where
  size_bytes : ℤ
deriving DecidableEq, Repr

/-- The `while` loop of `measure_mtu_with_timeout` (npt.py lines 209-230).
`reply s` is whether `sr1` of a packet of total size `s` gets a reply;
`elapsed k` is the value of `time.time() - start_time` at the k-th
iteration's timeout check. Raising TimeoutException is an `error` outcome;
returning is an `ok` outcome. Candidate sizes descend by 10 from the
caller's start while positive; falling out of the loop returns the
candidate as is. -/
def mtuTimeoutLoop (reply : ℤ → Bool) (elapsed : ℕ → ℚ) (k : ℕ) (mtu_size : ℤ) :
    Except Unit ℤ :=
  if h : 0 < mtu_size then
    if elapsed k > 10 then Except.error ()
    else if reply mtu_size then Except.ok mtu_size
    else mtuTimeoutLoop reply elapsed (k + 1) (mtu_size - 10)
  else Except.ok mtu_size
termination_by mtu_size.toNat
decreasing_by
  omega

/-- `measure_mtu_with_timeout` (npt.py lines 209-230): the loop started at
`mtu_size = 1500`. -/
def measure_mtu_with_timeout (reply : ℤ → Bool) (elapsed : ℕ → ℚ) : Except Unit ℤ :=
  mtuTimeoutLoop reply elapsed 0 1500

/-- `_measure_mtu_thread` (npt.py lines 259-269): the value the background
thread writes into `results['mtu']` when it finishes: a record on a
returned size, `None` on a raised exception. -/
def mtuThreadResult (outcome : Except Unit ℤ) : Option MtuStats :=
  match outcome with
  | Except.ok n => some ⟨n⟩
  | Except.error _ => none

/-- `measure_mtu` (npt.py lines 232-257): the value `results['mtu']` holds
when `measure_mtu` returns. If the 10-second `join` times out, the main
thread stores `None`; otherwise the thread has finished and its own write
stands (the `if 'mtu' not in self.results` guard then finds the key
present). -/
def measure_mtu (joinTimedOut : Bool) (outcome : Except Unit ℤ) : Option MtuStats :=
  if joinTimedOut then none else mtuThreadResult outcome

/-- The sequence of writes to `results['mtu']` produced by one call of
`measure_mtu` together with its daemon background thread, in temporal
order. When the join does not time out, the only write is the thread's.
When the join times out, `measure_mtu` writes `None` and moves on; the
abandoned daemon thread, if it reaches the end of `_measure_mtu_thread`
afterwards (`threadFinishes`), still performs its own unconditional write
of its outcome. -/
def mtuWriteEvents (joinTimedOut : Bool) (threadFinishes : Bool) (outcome : Except Unit ℤ) :
    List (Option MtuStats) :=
  if joinTimedOut then
    [none] ++ (if threadFinishes then [mtuThreadResult outcome] else [])
  else [mtuThreadResult outcome]

/-- The value a dictionary key holds after a sequence of writes: the last
write wins. -/
def lastWrite (w : List (Option MtuStats)) : Option (Option MtuStats) :=
  w.getLast?

/-- Outcome of an operation run under the `timeout` context manager
(npt.py lines 50-64), as observed by a caller that treats a
TimeoutException as TimedOut, any other exception as a propagated
failure, and a normal return as success. -/
inductive GovernedOutcome (α : Type) where
  | success (a : α)
  | timedOut
  | failure (e : String)
deriving DecidableEq, Repr

/-- The `timeout(seconds)` context manager (npt.py lines 50-64) around an
operation that would finish after `opTime` seconds with `opResult` (a
value, or an exception rendered as a message). `signal.alarm(seconds)`
fires after `seconds` seconds when `seconds > 0` (`alarm(0)` sets no
alarm), interrupting the operation with TimeoutException. Returns the
time at which control comes back to the caller, and the outcome. -/
def run_with_timeout (seconds : ℕ) (opTime : ℚ) (opResult : Except String ℚ) :
    ℚ × GovernedOutcome ℚ :=
  if 0 < seconds ∧ (seconds : ℚ) < opTime then ((seconds : ℚ), GovernedOutcome.timedOut)
  else
    (opTime,
      match opResult with
      | Except.ok a => GovernedOutcome.success a
      | Except.error e => GovernedOutcome.failure e)

/-- The six metric names accepted by the CLI (npt.py lines 325-327). -/
inductive Metric where
  | latency
  | packet_loss
  | bandwidth
  | jitter
  | mtu
  | dns
deriving DecidableEq, Repr

/-- The CLI name of each metric: the strings of the `--metrics` choices
list (npt.py lines 325-327), which are also the keys of
`metric_methods`. -/
def cliName : Metric → String
  | Metric.latency => "latency"
  | Metric.packet_loss => "packet_loss"
  | Metric.bandwidth => "bandwidth"
  | Metric.jitter => "jitter"
  | Metric.mtu => "mtu"
  | Metric.dns => "dns"

/-- The key under which each metric's method stores its result in
`self.results`: identical to the CLI name except that `measure_dns_resolution`
stores under `'dns_resolution'` (npt.py line 286). -/
def storedName : Metric → String
  | Metric.latency => "latency"
  | Metric.packet_loss => "packet_loss"
  | Metric.bandwidth => "bandwidth"
  | Metric.jitter => "jitter"
  | Metric.mtu => "mtu"
  | Metric.dns => "dns_resolution"

/-- A value of the `self.results` dictionary: either `None` (a failed or
absent metric) or one of the per-metric record shapes. -/
inductive MetricEntry where
  | absent
  | stats (s : Stats)
  | packetLoss (p : PacketLossStats)
  | bandwidth (b : BandwidthStats)
  | mtuSize (m : MtuStats)
deriving DecidableEq, Repr

/-- Python dict assignment `d[k] = v` on an insertion-ordered association
list: overwrite in place when the key exists, else append. -/
def dictInsert (r : List (String × MetricEntry)) (k : String) (v : MetricEntry) :
    List (String × MetricEntry) :=
  if k ∈ r.map Prod.fst then r.map (fun p => if p.1 = k then (k, v) else p)
  else r ++ [(k, v)]

/-- The orchestration loop of `main` (npt.py lines 343-349): run the
requested metrics in order; each metric's method stores its outcome
(`env m`, abstracting the network-dependent result) into `self.results`
under its stored key. `self.results` starts empty (npt.py line 70). -/
def runMetrics (P : List Metric) (env : Metric → MetricEntry) :
    List (String × MetricEntry) :=
  P.foldl (fun r m => dictInsert r (storedName m) (env m)) []

/-- The key list of a results dictionary, in insertion order. -/
def dictKeys (r : List (String × MetricEntry)) : List String :=
  r.map Prod.fst

/-- Python dictionary read `d[k]` on the insertion-ordered association
list (keys are unique, so first match is the entry); `none` means the key
is missing (a KeyError). -/
def dictGet (r : List (String × MetricEntry)) (k : String) : Option MetricEntry :=
  match r with
  | [] => none
  | (k0, v) :: rest => if k0 = k then some v else dictGet rest k

/-- The value stored for `results['latency']` as a dictionary entry:
`None` becomes `absent`. -/
def latencyEntry (pings : ℕ → Option ℚ) (sample_size : ℕ) : MetricEntry :=
  match measure_latency pings sample_size with
  | none => MetricEntry.absent
  | some s => MetricEntry.stats s

/-- The value stored for `results['bandwidth']` as a dictionary entry:
both branches of `measure_bandwidth` store a record, never `None`. -/
def bandwidthEntry (serverOk : Bool) (download upload : Option ℚ) : MetricEntry :=
  MetricEntry.bandwidth (measure_bandwidth serverOk download upload)

/-- Claim C2: `summarize` on an empty list is absent; on a singleton it
yields a record with average = min = max equal to the sample (the sample
being a 2-decimal value, as rounding to 2 decimals is applied); on
`[1, 2, 3]` it yields average 2, min 1, max 3; and on every non-empty
list it is the mean, min and max of exactly the given successful values,
each rounded to 2 decimal places. -/
theorem summarize_spec :
    summarize [] = none
    ∧ (∀ x : ℚ, round2 x = x → summarize [x] = some ⟨x, x, x⟩)
    ∧ summarize [1, 2, 3] = some ⟨2, 1, 3⟩
    ∧ (∀ l : List ℚ, l ≠ [] →
        summarize l = some ⟨round2 (mean l), round2 (listMin l), round2 (listMax l)⟩) := by
  refine ⟨rfl, ?_, ?_, ?_⟩
  · intro x hx
    simp [summarize, mean, listMin, listMax, hx]
  · norm_num [summarize, mean, listMin, listMax, round2, pyRoundInt]
  · intro l hl
    simp [summarize, List.isEmpty_iff, hl]

/-- Witness for `summarize_spec` at concrete inputs. -/
theorem summarize_spec_witness :
    summarize [(5 : ℚ)] = some ⟨5, 5, 5⟩
    ∧ summarize [(1 : ℚ), 3] =
        some ⟨round2 (mean [(1 : ℚ), 3]), round2 (listMin [(1 : ℚ), 3]),
          round2 (listMax [(1 : ℚ), 3])⟩ :=
  ⟨summarize_spec.2.1 5 (by norm_num [round2, pyRoundInt]),
    summarize_spec.2.2.2 [1, 3] (by simp)⟩

/-- Claim C3: jitter is computed from the absolute differences between
temporally adjacent successful latency samples: on latencies
`[10, 15, 12]` the differences are `[5, 3]` and the result is average 4,
min 3, max 5; with fewer than 2 successful samples the result is absent;
and `measure_jitter` applies this to exactly the successful collected
latencies. -/
theorem jitter_spec :
    diffs [10, 15, 12] = [5, 3]
    ∧ jitterOf [(10 : ℚ), 15, 12] = some ⟨4, 3, 5⟩
    ∧ (∀ l : List ℚ, l.length < 2 → jitterOf l = none)
    ∧ (∀ (pings : ℕ → Option ℚ) (n : ℕ),
        measure_jitter pings n = jitterOf (collectLatencies pings n)) := by
  refine ⟨by norm_num [diffs], ?_, ?_, fun _ _ => rfl⟩
  · norm_num [jitterOf, diffs, mean, listMin, listMax, round2, pyRoundInt]
  · intro l hl
    have h2 : ¬ 2 ≤ l.length := by omega
    simp [jitterOf, h2]

/-- Witness for `jitter_spec` at a concrete short sample list. -/
theorem jitter_spec_witness : jitterOf [(10 : ℚ)] = none :=
  jitter_spec.2.2.1 [10] (by simp)

/-- Claim C8: with `sample_size = 0` every sample-based metric completes
(the functions are total: any raised exception is caught) and its result
is absent. -/
theorem zero_sample_size_spec : ∀ pings : ℕ → Option ℚ,
    measure_latency pings 0 = none
    ∧ measure_packet_loss pings 0 = none
    ∧ measure_jitter pings 0 = none := by
  intro pings
  refine ⟨?_, ?_, ?_⟩ <;>
    simp [measure_latency, measure_packet_loss, measure_jitter, collectLatencies,
      summarize, jitterOf]

/-- Claim C4, counterexample: with 3 samples sent and zero successes,
`measure_packet_loss` never throws but stores a populated record (100%
loss), not an absent entry — refuting "for every sample-based metric, if
zero samples succeed the metric's result in the Report is absent". -/
theorem packet_loss_all_fail_counterexample :
    measure_packet_loss (fun _ => none) 3 = some ⟨100, 3, 0⟩
    ∧ measure_packet_loss (fun _ => none) 3 ≠ none := by
  have hf : (List.range 3).filterMap (fun _ => (none : Option ℚ)) = [] := by simp
  have h : measure_packet_loss (fun _ => none) 3 = some ⟨100, 3, 0⟩ := by
    simp only [measure_packet_loss, hf, List.length_nil]
    norm_num [round2, pyRoundInt]
  exact ⟨h, by simp [h]⟩

/-- Claim C4, amended: when zero samples succeed, no sample-based metric
throws to the caller (the functions are total); latency and jitter then
store an absent result, but packet_loss stores a populated record with a
100% loss rate whenever at least one sample was sent, and is absent only
in the degenerate `sample_size = 0` case (caught ZeroDivisionError). -/
theorem zero_success_spec : ∀ (pings : ℕ → Option ℚ) (n : ℕ),
    (List.range n).filterMap pings = [] →
    measure_latency pings n = none
    ∧ measure_jitter pings n = none
    ∧ (0 < n → measure_packet_loss pings n = some ⟨100, n, 0⟩)
    ∧ (n = 0 → measure_packet_loss pings n = none) := by
  intro pings n h
  refine ⟨?_, ?_, ?_, ?_⟩
  · simp [measure_latency, collectLatencies, h, summarize]
  · simp [measure_jitter, collectLatencies, h, jitterOf]
  · intro hn
    have hn0 : n ≠ 0 := by omega
    have hlen : ((List.range n).filterMap pings).length = 0 := by rw [h]; rfl
    have hq : ((n : ℚ) - 0) / (n : ℚ) * 100 = 100 := by
      have hc : (n : ℚ) ≠ 0 := Nat.cast_ne_zero.mpr hn0
      field_simp
    simp only [measure_packet_loss, hlen, if_neg hn0, Nat.cast_zero, hq]
    norm_num [round2, pyRoundInt]
  · intro hn
    simp [measure_packet_loss, hn]

/-- Witness for `zero_success_spec` at concrete all-failing runs. -/
theorem zero_success_spec_witness :
    measure_latency (fun _ => none) 5 = none
    ∧ measure_packet_loss (fun _ => none) 5 = some ⟨100, 5, 0⟩
    ∧ measure_packet_loss (fun _ => none) 0 = none := by
  have h5 := zero_success_spec (fun _ => none) 5 (by simp)
  have h0 := zero_success_spec (fun _ => none) 0 (by simp)
  exact ⟨h5.1, h5.2.2.1 (by norm_num), h0.2.2.2 rfl⟩

/-- Claim C10: the bandwidth entry is always a record with two independent
optional fields — each sub-test's failure only clears its own field, and
even when the whole measurement fails the entry is a record with both
fields absent, never an absent entry (unlike latency, whose entry can be
absent). -/
theorem bandwidth_shape_spec : ∀ (serverOk : Bool) (download upload : Option ℚ),
    bandwidthEntry serverOk download upload ≠ MetricEntry.absent
    ∧ (∃ b : BandwidthStats, bandwidthEntry serverOk download upload = MetricEntry.bandwidth b)
    ∧ (serverOk = false → measure_bandwidth serverOk download upload = ⟨none, none⟩)
    ∧ measure_bandwidth true download none =
        ⟨download.map (fun d => round2 (d / 1000000)), none⟩
    ∧ measure_bandwidth true none upload =
        ⟨none, upload.map (fun u => round2 (u / 1000000))⟩
    ∧ (∃ (pings : ℕ → Option ℚ) (n : ℕ), latencyEntry pings n = MetricEntry.absent) := by
  intro serverOk download upload
  refine ⟨by simp [bandwidthEntry], ⟨_, rfl⟩, ?_, ?_, ?_, ⟨fun _ => none, 0, ?_⟩⟩
  · intro h
    simp [measure_bandwidth, h]
  · simp [measure_bandwidth]
  · simp [measure_bandwidth]
  · simp [latencyEntry, measure_latency, collectLatencies, summarize]

/-- Witness for `bandwidth_shape_spec` at a failed setup. -/
theorem bandwidth_shape_spec_witness :
    measure_bandwidth false (some 5) none = ⟨none, none⟩ :=
  (bandwidth_shape_spec false (some 5) none).2.2.1 rfl

/-- Claim C7: a governed operation produces exactly one of success,
TimedOut or propagated failure; control returns within the larger of the
budget and the operation's own duration (never a silent hang); and when
the operation outlasts a positive budget, control returns at the budget
with TimedOut — e.g. a 5-second operation under a 1-second budget returns
TimedOut at 1 second, not 5. -/
theorem run_with_timeout_spec : ∀ (seconds : ℕ) (opTime : ℚ) (opResult : Except String ℚ),
    ((run_with_timeout seconds opTime opResult).2 = GovernedOutcome.timedOut
      ∨ (∃ a, (run_with_timeout seconds opTime opResult).2 = GovernedOutcome.success a)
      ∨ (∃ e, (run_with_timeout seconds opTime opResult).2 = GovernedOutcome.failure e))
    ∧ (run_with_timeout seconds opTime opResult).1 ≤ max (seconds : ℚ) opTime
    ∧ (0 < seconds → (seconds : ℚ) < opTime →
        run_with_timeout seconds opTime opResult = ((seconds : ℚ), GovernedOutcome.timedOut)) := by
  intro seconds opTime opResult
  refine ⟨?_, ?_, ?_⟩
  · unfold run_with_timeout
    split
    · exact Or.inl rfl
    · cases opResult with
      | ok a => exact Or.inr (Or.inl ⟨a, rfl⟩)
      | error e => exact Or.inr (Or.inr ⟨e, rfl⟩)
  · unfold run_with_timeout
    split
    · exact le_max_left _ _
    · exact le_max_right _ _
  · intro h1 h2
    unfold run_with_timeout
    rw [if_pos ⟨h1, h2⟩]

/-- Witness for `run_with_timeout_spec`: a 5-second operation under a
1-second budget. -/
theorem run_with_timeout_spec_witness :
    run_with_timeout 1 5 (Except.ok 0) = (1, GovernedOutcome.timedOut) := by
  have h := (run_with_timeout_spec 1 5 (Except.ok 0)).2.2 (by norm_num) (by norm_num)
  simpa using h

/-- Claim C9, counterexample: when the 10-second join times out, the main
thread records an absent mtu entry, but the abandoned daemon thread that
later finishes with size 1000 performs a second write that overwrites it —
the entry is written twice and the final value is the late background
result, refuting single-write / no-late-overwrite. -/
theorem mtu_late_write_counterexample :
    mtuWriteEvents true true (Except.ok 1000) = [none, some ⟨1000⟩]
    ∧ (mtuWriteEvents true true (Except.ok 1000)).length ≠ 1
    ∧ lastWrite (mtuWriteEvents true true (Except.ok 1000)) = some (some ⟨1000⟩)
    ∧ lastWrite (mtuWriteEvents true true (Except.ok 1000)) ≠ some none :=
  ⟨rfl, by decide, rfl, by decide⟩

/-- Claim C9, amended: when the join does not time out, the mtu entry is
written exactly once, by the background thread's terminal transition; but
when the join times out and the abandoned thread later completes, the
entry is written twice and the thread's late result overwrites the absent
verdict already recorded by the caller. -/
theorem mtu_write_discipline_spec : ∀ (threadFinishes : Bool) (outcome : Except Unit ℤ),
    mtuWriteEvents false threadFinishes outcome = [mtuThreadResult outcome]
    ∧ mtuWriteEvents true false outcome = [none]
    ∧ mtuWriteEvents true true outcome = [none, mtuThreadResult outcome]
    ∧ lastWrite (mtuWriteEvents true true outcome) = some (mtuThreadResult outcome) := by
  intro threadFinishes outcome
  exact ⟨rfl, rfl, rfl, rfl⟩

/-- Claim C6, counterexample: a search that exceeds the overall budget can
leave a populated mtu entry in the final Report. The thread's loop passes
its clock check at 9.9 seconds and the probe's reply arrives after the
caller's 10-second join has already expired: the loop returns size 1500,
`measure_mtu` has recorded `None`, and the abandoned thread's late
unconditional write makes the final Report entry that size — not
absent. -/
theorem mtu_report_after_timeout_counterexample :
    mtuTimeoutLoop (fun _ => true) (fun _ => 99/10) 0 1500 = Except.ok 1500
    ∧ lastWrite (mtuWriteEvents true true
        (mtuTimeoutLoop (fun _ => true) (fun _ => 99/10) 0 1500)) = some (some ⟨1500⟩)
    ∧ lastWrite (mtuWriteEvents true true
        (mtuTimeoutLoop (fun _ => true) (fun _ => 99/10) 0 1500)) ≠ some none := by
  have h1 : mtuTimeoutLoop (fun _ => true) (fun _ => (99/10 : ℚ)) 0 1500 = Except.ok 1500 := by
    rw [mtuTimeoutLoop]
    norm_num
  refine ⟨h1, ?_, ?_⟩
  · rw [h1]
    rfl
  · rw [h1]
    decide

/-- Claim C6, amended: when the MTU search exceeds its overall 10-second
budget, the value `measure_mtu` records at its return is absent — on the
internal-clock path the thread raises and stores `None` itself, and on the
join-timeout path the caller stores `None` — never a partial best-effort
size; and that absent entry is final whenever the abandoned thread never
completes. However, when the join times out and the abandoned thread later
completes with a size, its late unconditional write replaces the absent
entry in the final Report with that size. -/
theorem mtu_timeout_recorded_absent_spec :
    (∀ (joinTimedOut : Bool) (outcome : Except Unit ℤ),
      joinTimedOut = true ∨ outcome = Except.error () →
      measure_mtu joinTimedOut outcome = none)
    ∧ (∀ (reply : ℤ → Bool) (elapsed : ℕ → ℚ) (k : ℕ) (n : ℤ),
        0 < n → elapsed k > 10 →
        mtuTimeoutLoop reply elapsed k n = Except.error ())
    ∧ (∀ outcome : Except Unit ℤ,
        lastWrite (mtuWriteEvents true false outcome) = some none)
    ∧ (∀ n : ℤ,
        lastWrite (mtuWriteEvents true true (Except.ok n)) = some (some ⟨n⟩)) := by
  refine ⟨?_, ?_, fun _ => rfl, fun _ => rfl⟩
  · rintro joinTimedOut outcome (h | h)
    · simp [measure_mtu, h]
    · cases joinTimedOut
      · simp [measure_mtu, h, mtuThreadResult]
      · simp [measure_mtu]
  · intro reply elapsed k n h0 ht
    rw [mtuTimeoutLoop]
    simp [h0, ht]

/-- Witness for `mtu_timeout_recorded_absent_spec`: a timed-out join with
an aborted outcome records an absent entry, and a clock already past 10
seconds aborts the loop at once. -/
theorem mtu_timeout_recorded_absent_witness :
    measure_mtu true (Except.error ()) = none
    ∧ mtuTimeoutLoop (fun _ => true) (fun _ => 12) 0 1500 = Except.error () :=
  ⟨mtu_timeout_recorded_absent_spec.1 true (Except.error ()) (Or.inl rfl),
    mtu_timeout_recorded_absent_spec.2.1 (fun _ => true) (fun _ => 12) 0 1500
      (by norm_num) (by norm_num)⟩

/-- One non-final step of the MTU loop: a positive candidate with no
timeout and no reply moves to the next candidate, 10 lower. -/
theorem mtuTimeoutLoop_step (reply : ℤ → Bool) (elapsed : ℕ → ℚ) (k : ℕ) (n : ℤ)
    (h0 : 0 < n) (hclk : ¬ elapsed k > 10) (hr : reply n = false) :
    mtuTimeoutLoop reply elapsed k n = mtuTimeoutLoop reply elapsed (k + 1) (n - 10) := by
  rw [mtuTimeoutLoop]
  simp [h0, hclk, hr]

/-- Descent with a threshold oracle: starting anywhere 10-aligned above
1000, the loop reaches 1000 and accepts it. -/
theorem mtu_descend_threshold (elapsed : ℕ → ℚ) (hclk : ∀ j, ¬ elapsed j > 10) :
    ∀ (m : ℕ) (k : ℕ),
      mtuTimeoutLoop (fun s => decide (s ≤ 1000)) elapsed k (1000 + 10 * (m : ℤ)) =
        Except.ok 1000 := by
  intro m
  induction m with
  | zero =>
    intro k
    rw [mtuTimeoutLoop]
    simp [hclk k]
  | succ m ih =>
    intro k
    have h0 : (0 : ℤ) < 1000 + 10 * ((m : ℤ) + 1) := by omega
    have hr : ¬ (1000 + 10 * ((m : ℤ) + 1) ≤ 1000) := by omega
    rw [show ((((m + 1) : ℕ) : ℤ)) = (m : ℤ) + 1 by push_cast; ring]
    rw [mtuTimeoutLoop]
    simp only [h0, dif_pos, if_neg (hclk k), decide_eq_true_eq, if_neg hr]
    rw [show 1000 + 10 * ((m : ℤ) + 1) - 10 = 1000 + 10 * (m : ℤ) by ring]
    exact ih (k + 1)

/-- Descent with an oracle that never replies: from any 10-aligned
candidate the loop exhausts down to 0 and returns it. -/
theorem mtu_descend_exhaust (elapsed : ℕ → ℚ) (hclk : ∀ j, ¬ elapsed j > 10) :
    ∀ (m : ℕ) (k : ℕ),
      mtuTimeoutLoop (fun _ => false) elapsed k (10 * (m : ℤ)) = Except.ok 0 := by
  intro m
  induction m with
  | zero =>
    intro k
    rw [mtuTimeoutLoop]
    simp
  | succ m ih =>
    intro k
    have h0 : (0 : ℤ) < 10 * ((m : ℤ) + 1) := by omega
    rw [show ((((m + 1) : ℕ) : ℤ)) = (m : ℤ) + 1 by push_cast; ring]
    rw [mtuTimeoutLoop]
    simp only [h0, dif_pos, if_neg (hclk k), Bool.false_eq_true, if_false]
    rw [show 10 * ((m : ℤ) + 1) - 10 = 10 * (m : ℤ) by ring]
    exact ih (k + 1)

/-- Claim C5: MTU discovery is a linear descent from 1500 by steps of 10
that accepts the first candidate eliciting a reply: any positive candidate
with a reply is returned at once; a candidate without a reply steps down
by exactly 10; on a path replying for sizes at most 1000 the discovered
MTU is 1000; and when no candidate ever replies the loop bottoms out and
returns the minimum size 0. -/
theorem mtu_descent_spec :
    measure_mtu_with_timeout (fun s => decide (s ≤ 1000)) (fun _ => 0) = Except.ok 1000
    ∧ measure_mtu_with_timeout (fun _ => false) (fun _ => 0) = Except.ok 0
    ∧ (∀ (reply : ℤ → Bool) (elapsed : ℕ → ℚ) (k : ℕ) (n : ℤ),
        0 < n → ¬ elapsed k > 10 → reply n = true →
        mtuTimeoutLoop reply elapsed k n = Except.ok n)
    ∧ (∀ (reply : ℤ → Bool) (elapsed : ℕ → ℚ) (k : ℕ) (n : ℤ),
        0 < n → ¬ elapsed k > 10 → reply n = false →
        mtuTimeoutLoop reply elapsed k n = mtuTimeoutLoop reply elapsed (k + 1) (n - 10)) := by
  have hclk : ∀ j : ℕ, ¬ ((fun _ : ℕ => (0 : ℚ)) j > 10) := by
    intro j
    norm_num
  refine ⟨?_, ?_, ?_, mtuTimeoutLoop_step⟩
  · have h := mtu_descend_threshold (fun _ => 0) hclk 50 0
    rw [show (1000 + 10 * ((50 : ℕ) : ℤ)) = 1500 by norm_num] at h
    exact h
  · have h := mtu_descend_exhaust (fun _ => 0) hclk 150 0
    rw [show (10 * ((150 : ℕ) : ℤ)) = 1500 by norm_num] at h
    exact h
  · intro reply elapsed k n h0 hclk1 hr
    rw [mtuTimeoutLoop]
    simp [h0, hclk1, hr]

/-- Witness for `mtu_descent_spec`: first success is accepted at once, and
a silent candidate steps down by 10. -/
theorem mtu_descent_spec_witness :
    mtuTimeoutLoop (fun _ => true) (fun _ => 0) 0 1500 = Except.ok 1500
    ∧ mtuTimeoutLoop (fun _ => false) (fun _ => 0) 3 20 =
        mtuTimeoutLoop (fun _ => false) (fun _ => 0) 4 10 :=
  ⟨mtu_descent_spec.2.2.1 (fun _ => true) (fun _ => 0) 0 1500 (by norm_num) (by norm_num) rfl,
    mtu_descent_spec.2.2.2 (fun _ => false) (fun _ => 0) 3 20 (by norm_num) (by norm_num) rfl⟩

/-- Inserting a key not yet present appends the pair. -/
theorem dictInsert_fresh (r : List (String × MetricEntry)) (k : String) (v : MetricEntry)
    (h : k ∉ r.map Prod.fst) : dictInsert r k v = r ++ [(k, v)] := by
  simp [dictInsert, h]

/-- The orchestration fold over metrics with pairwise distinct stored
names appends one entry per metric, in order, after any accumulator whose
keys are disjoint from them. -/
theorem runMetrics_go (env : Metric → MetricEntry) :
    ∀ (P : List Metric) (acc : List (String × MetricEntry)),
      (P.map storedName).Nodup →
      (∀ m ∈ P, storedName m ∉ acc.map Prod.fst) →
      P.foldl (fun r m => dictInsert r (storedName m) (env m)) acc
        = acc ++ P.map (fun m => (storedName m, env m)) := by
  intro P
  induction P with
  | nil =>
    intro acc _ _
    simp
  | cons m P ih =>
    intro acc hnd hfresh
    rw [List.map_cons, List.nodup_cons] at hnd
    have hnd' := hnd
    have hf : ∀ m' ∈ P, storedName m' ∉ (acc ++ [(storedName m, env m)]).map Prod.fst := by
      intro m' hm'
      have h1 : storedName m' ∉ acc.map Prod.fst := hfresh m' (by simp [hm'])
      have h2 : storedName m' ≠ storedName m := by
        intro he
        apply hnd'.1
        rw [← he]
        exact List.mem_map_of_mem storedName hm'
      simp [h1, h2]
    simp only [List.foldl_cons]
    rw [dictInsert_fresh acc (storedName m) (env m) (hfresh m (by simp))]
    rw [ih (acc ++ [(storedName m, env m)]) hnd'.2 hf]
    simp

/-- Reading a metric's stored key from the one-entry-per-metric report
finds that metric's entry. -/
theorem dictGet_map_self (env : Metric → MetricEntry) :
    ∀ (P : List Metric) (m : Metric),
      (P.map storedName).Nodup → m ∈ P →
      dictGet (P.map (fun m' => (storedName m', env m'))) (storedName m) = some (env m) := by
  intro P
  induction P with
  | nil =>
    intro m _ hm
    cases hm
  | cons m0 P ih =>
    intro m hnd hm
    rw [List.map_cons, List.nodup_cons] at hnd
    have hnd' := hnd
    by_cases he : storedName m0 = storedName m
    · have hm0 : m = m0 := by
        rcases List.mem_cons.mp hm with h | h
        · exact h
        · exfalso
          apply hnd'.1
          rw [he]
          exact List.mem_map_of_mem storedName h
      subst hm0
      simp [dictGet]
    · have hm2 : m ∈ P := by
        rcases List.mem_cons.mp hm with h | h
        · exact absurd (h ▸ rfl) he
        · exact h
      simp only [List.map_cons, dictGet, if_neg he]
      exact ih m hnd'.2 hm2

/-- Claim C1, counterexample: requesting the probe set `['dns']` (the CLI
name) yields a report whose key set is `{'dns_resolution'}`, not
`{'dns'}` — the key set does not equal the requested set when a metric is
requested under its CLI name. -/
theorem report_keys_dns_counterexample :
    dictKeys (runMetrics [Metric.dns] (fun _ => MetricEntry.absent)) = ["dns_resolution"]
    ∧ dictKeys (runMetrics [Metric.dns] (fun _ => MetricEntry.absent)) ≠ [cliName Metric.dns] := by
  refine ⟨rfl, ?_⟩
  intro hcontra
  simp [dictKeys, runMetrics, dictInsert, cliName, storedName] at hcontra

/-- Claim C1, amended: `run(P, ...)` returns a Report whose key list is
exactly the image of P under the stored-name map — the identity on every
metric except `dns`, which is stored as `dns_resolution` — never more,
never fewer; and (for P without repeated stored names) every requested
metric has exactly one entry after the run, either populated or
explicitly absent, found under its stored name. -/
theorem report_keys_spec : ∀ (P : List Metric) (env : Metric → MetricEntry),
    (P.map storedName).Nodup →
    dictKeys (runMetrics P env) = P.map storedName
    ∧ (dictKeys (runMetrics P env)).Nodup
    ∧ (∀ m ∈ P, dictGet (runMetrics P env) (storedName m) = some (env m)) := by
  intro P env hnd
  have hrun : runMetrics P env = P.map (fun m => (storedName m, env m)) := by
    have h := runMetrics_go env P [] hnd (by intro m _; simp)
    simpa [runMetrics] using h
  have hkeys : dictKeys (runMetrics P env) = P.map storedName := by
    rw [hrun]
    simp [dictKeys, List.map_map, Function.comp]
  refine ⟨hkeys, hkeys ▸ hnd, ?_⟩
  intro m hm
  rw [hrun]
  exact dictGet_map_self env P m hnd hm

/-- Witness for `report_keys_spec`: the default full run. -/
theorem report_keys_spec_witness :
    dictKeys (runMetrics [Metric.latency, Metric.packet_loss, Metric.bandwidth,
        Metric.jitter, Metric.mtu, Metric.dns] (fun _ => MetricEntry.absent))
      = ["latency", "packet_loss", "bandwidth", "jitter", "mtu", "dns_resolution"]
    ∧ dictGet (runMetrics [Metric.latency, Metric.packet_loss, Metric.bandwidth,
        Metric.jitter, Metric.mtu, Metric.dns] (fun _ => MetricEntry.absent))
        (storedName Metric.dns) = some MetricEntry.absent := by
  have h := report_keys_spec [Metric.latency, Metric.packet_loss, Metric.bandwidth,
    Metric.jitter, Metric.mtu, Metric.dns] (fun _ => MetricEntry.absent) (by decide)
  exact ⟨h.1, h.2.2 Metric.dns (by decide)⟩

end NPT
